import Mathlib

/-!
# RWA Sentinel Protocol — Legal Oracle: verified model of the audit core

A shallow embedding of `ai-legal-core/main.py`. The audit pipeline
(`audit_contract`), the signature gate (`verify_signature`), both document
analyzers (`analyze_legal_document`) and the SHA-256 digest used for the
approval artifact are translated into executable Lean definitions, and the
spec's testable properties are proved about them.

External collaborators are modelled as explicit oracles:

* the EIP-191 address recovery of `eth_account` (`Account.recover_message`
  composed with `encode_defunct`) is a parameter
  `recover : String → String → Option String` taking the message and the
  signature and returning the recovered address, or `none` when the library
  raises (malformed signature, wrong length, recovery failure);
* the OpenAI chat-completion call is a parameter
  `backend : List (String × String) → Except String (Option String)` taking the
  `(role, content)` messages and returning `response.choices[0].message.content`
  (which Python types as `str | None`), or `Except.error e` when the call
  raises with message `e`;
* Python's `json.loads` is a parameter `jparse : String → Except String JVal`
  returning the parsed value or the exception message.

Python strings are modelled as Lean `String`s (sequences of code points, which
matches CPython's `str`); `str.lower` and `str.strip` are modelled on the
character ranges that occur in this program (ASCII plus Latin-1 letters for
`lower`, ASCII whitespace for `strip`).
-/

namespace RWASentinel

/-! ## Python string primitives -/

/-- Python `str.lower` on one code point, faithful on ASCII and Latin-1
(`A`–`Z` and `À`–`Þ` except `×` map 32 code points up, which covers every
character this program compares: the keyword letters including `ó`/`Ó`
and the hex digits of wallet addresses). -/
def charLower (c : Char) : Char :=
  let n := c.toNat
  if 65 ≤ n ∧ n ≤ 90 then Char.ofNat (n + 32)
  else if 192 ≤ n ∧ n ≤ 222 ∧ n ≠ 215 then Char.ofNat (n + 32)
  else c

/-- Python `str.lower` on a list of code points. -/
def pyLowerL (cs : List Char) : List Char := cs.map charLower

/-- Python `str.lower`. -/
def pyLower (s : String) : String := (pyLowerL s.toList).asString

/-- Python `str.strip` whitespace set (the ASCII part: space, tab, newline,
carriage return, vertical tab, form feed). -/
def isPyWS (c : Char) : Bool :=
  c = ' ' || c = '\t' || c = '\n' || c = '\r' || c = '\x0b' || c = '\x0c'

/-- Python `str.strip` on a list of code points: drop whitespace from both
ends. -/
def pyStripL (cs : List Char) : List Char :=
  ((cs.dropWhile isPyWS).reverse.dropWhile isPyWS).reverse

/-- Python `str.strip`. -/
def pyStrip (s : String) : String := (pyStripL s.toList).asString

/-- Python `needle in hay` on strings: scan every suffix of `hay` for
`needle` as a prefix. -/
def containsSub (needle : List Char) : List Char → Bool
  | [] => needle.isPrefixOf []
  | c :: t => needle.isPrefixOf (c :: t) || containsSub needle t

/-- Python `"a\nb".split("\n")`: split a list of code points at every
newline; always returns at least one (possibly empty) chunk. -/
def splitNL : List Char → List (List Char)
  | [] => [[]]
  | c :: rest =>
    if c = '\n' then [] :: splitNL rest
    else
      match splitNL rest with
      | [] => [[c]]
      | h :: t => (c :: h) :: t

/-- Python `"\n".join(...)` on lists of code points. -/
def joinNL : List (List Char) → List Char
  | [] => []
  | [l] => l
  | l :: ls => l ++ '\n' :: joinNL ls

/-- The code-fence marker `` ``` `` as a list of code points. -/
def fenceMark : List Char := "```".toList

/-- Python `l.startswith("```")` on a list of code points. -/
def startsFence (l : List Char) : Bool := fenceMark.isPrefixOf l

/-! ## UTF-8 encoding (Python `str.encode("utf-8")`) -/

/-- The UTF-8 bytes of one code point. -/
def utf8Char (c : Char) : List Nat :=
  let n := c.toNat
  if n < 128 then [n]
  else if n < 2048 then [192 + n / 64, 128 + n % 64]
  else if n < 65536 then [224 + n / 4096, 128 + n / 64 % 64, 128 + n % 64]
  else [240 + n / 262144, 128 + n / 4096 % 64, 128 + n / 64 % 64, 128 + n % 64]

/-- Python `s.encode("utf-8")` as a list of byte values. -/
def strUtf8 (s : String) : List Nat := s.toList.flatMap utf8Char

/-! ## SHA-256 (Python `hashlib.sha256(...).hexdigest()`)

A byte-level implementation of FIPS 180-4 over `Nat` with explicit
`% 2^32` reductions, validated below against the standard test vectors. -/

/-- `2^32`, the word modulus of SHA-256. -/
def M32 : Nat := 4294967296

/-- Rotate a 32-bit word right by `n`. -/
def rotr (n x : Nat) : Nat := ((x >>> n) ||| (x <<< (32 - n))) % M32

/-- SHA-256 Σ₀. -/
def bigSigma0 (x : Nat) : Nat := rotr 2 x ^^^ rotr 13 x ^^^ rotr 22 x

/-- SHA-256 Σ₁. -/
def bigSigma1 (x : Nat) : Nat := rotr 6 x ^^^ rotr 11 x ^^^ rotr 25 x

/-- SHA-256 σ₀. -/
def smallSigma0 (x : Nat) : Nat := rotr 7 x ^^^ rotr 18 x ^^^ (x >>> 3)

/-- SHA-256 σ₁. -/
def smallSigma1 (x : Nat) : Nat := rotr 17 x ^^^ rotr 19 x ^^^ (x >>> 10)

/-- SHA-256 Ch(x,y,z). -/
def chFun (x y z : Nat) : Nat := (x &&& y) ^^^ ((x ^^^ 4294967295) &&& z)

/-- SHA-256 Maj(x,y,z). -/
def majFun (x y z : Nat) : Nat := (x &&& y) ^^^ (x &&& z) ^^^ (y &&& z)

/-- The eight 32-bit words of a SHA-256 state. -/
structure Hash8 where
  a : Nat
  b : Nat
  c : Nat
  d : Nat
  e : Nat
  f : Nat
  g : Nat
  h : Nat

/-- The 64 SHA-256 round constants (FIPS 180-4 §4.2.2, written in
decimal). -/
def K256 : List Nat :=
  [1116352408, 1899447441, 3049323471, 3921009573,
   961987163, 1508970993, 2453635748, 2870763221,
   3624381080, 310598401, 607225278, 1426881987,
   1925078388, 2162078206, 2614888103, 3248222580,
   3835390401, 4022224774, 264347078, 604807628,
   770255983, 1249150122, 1555081692, 1996064986,
   2554220882, 2821834349, 2952996808, 3210313671,
   3336571891, 3584528711, 113926993, 338241895,
   666307205, 773529912, 1294757372, 1396182291,
   1695183700, 1986661051, 2177026350, 2456956037,
   2730485921, 2820302411, 3259730800, 3345764771,
   3516065817, 3600352804, 4094571909, 275423344,
   430227734, 506948616, 659060556, 883997877,
   958139571, 1322822218, 1537002063, 1747873779,
   1955562222, 2024104815, 2227730452, 2361852424,
   2428436474, 2756734187, 3204031479, 3329325298]

/-- The SHA-256 initial state (FIPS 180-4 §5.3.3, written in decimal). -/
def H256init : Hash8 :=
  ⟨1779033703, 3144134277, 1013904242, 2773480762,
   1359893119, 2600822924, 528734635, 1541459225⟩

/-- Big-endian bytes → 32-bit words. -/
def toWords : List Nat → List Nat
  | b0 :: b1 :: b2 :: b3 :: rest =>
      (b0 * 16777216 + b1 * 65536 + b2 * 256 + b3) :: toWords rest
  | _ => []

/-- One message-schedule extension step: append `σ₁(w[n−2]) + w[n−7] +
σ₀(w[n−15]) + w[n−16] mod 2^32`. -/
def scheduleStep (ws : List Nat) : List Nat :=
  let n := ws.length
  ws ++ [(smallSigma1 (ws.getD (n - 2) 0) + ws.getD (n - 7) 0 +
          smallSigma0 (ws.getD (n - 15) 0) + ws.getD (n - 16) 0) % M32]

/-- Extend the 16 block words to the 64 schedule words. -/
def schedule (ws : List Nat) : List Nat :=
  (List.range 48).foldl (fun acc _ => scheduleStep acc) ws

/-- One SHA-256 compression round with round constant and schedule word
`kw`. -/
def roundStep (st : Hash8) (kw : Nat × Nat) : Hash8 :=
  let t1 := (st.h + bigSigma1 st.e + chFun st.e st.f st.g + kw.1 + kw.2) % M32
  let t2 := (bigSigma0 st.a + majFun st.a st.b st.c) % M32
  ⟨(t1 + t2) % M32, st.a, st.b, st.c, (st.d + t1) % M32, st.e, st.f, st.g⟩

/-- Compress one 64-byte block into the running state. -/
def compressBlock (H : Hash8) (block : List Nat) : Hash8 :=
  let st := (K256.zip (schedule (toWords block))).foldl roundStep H
  ⟨(H.a + st.a) % M32, (H.b + st.b) % M32, (H.c + st.c) % M32,
   (H.d + st.d) % M32, (H.e + st.e) % M32, (H.f + st.f) % M32,
   (H.g + st.g) % M32, (H.h + st.h) % M32⟩

/-- Feed one byte of the padded message: buffer it, and compress when the
buffer reaches 64 bytes. -/
def sha256step (st : Hash8 × List Nat) (b : Nat) : Hash8 × List Nat :=
  let buf := st.2 ++ [b]
  if buf.length = 64 then (compressBlock st.1 buf, []) else (st.1, buf)

/-- A `Nat` as 8 big-endian bytes (the SHA-256 length field). -/
def be64 (n : Nat) : List Nat :=
  [(n >>> 56) % 256, (n >>> 48) % 256, (n >>> 40) % 256, (n >>> 32) % 256,
   (n >>> 24) % 256, (n >>> 16) % 256, (n >>> 8) % 256, n % 256]

/-- A 32-bit word as 4 big-endian bytes. -/
def be32 (w : Nat) : List Nat :=
  [(w >>> 24) % 256, (w >>> 16) % 256, (w >>> 8) % 256, w % 256]

/-- SHA-256 padding: `0x80`, zeros to 56 mod 64, then the bit length as 8
big-endian bytes. -/
def padMessage (msg : List Nat) : List Nat :=
  let len := msg.length
  msg ++ 128 :: List.replicate ((120 - (len + 1) % 64) % 64) 0 ++ be64 (len * 8)

/-- The SHA-256 digest of a byte list, as 32 bytes: the final state words,
each as 4 big-endian bytes. -/
def sha256 (msg : List Nat) : List Nat :=
  let Hf := ((padMessage msg).foldl sha256step (H256init, [])).1
  [Hf.a, Hf.b, Hf.c, Hf.d, Hf.e, Hf.f, Hf.g, Hf.h].flatMap be32

/-- One lowercase hex digit. -/
def hexDigit (n : Nat) : Char :=
  if n < 10 then Char.ofNat (48 + n) else Char.ofNat (87 + n)

/-- One byte as two lowercase hex digits. -/
def byteToHex (b : Nat) : List Char := [hexDigit (b / 16), hexDigit (b % 16)]

/-- Python `hashlib.sha256(bytes).hexdigest()`: the digest as lowercase
hex. -/
def sha256hex (msg : List Nat) : String :=
  ((sha256 msg).flatMap byteToHex).asString

/-! ## JSON values (Python objects produced by `json.loads` / dict literals) -/

/-- A Python value of the shapes JSON round-trips: `None`, `bool`, `int`,
`str`, `list`, `dict` (an association list preserving insertion order; the
dicts this program builds have distinct keys). Floats do not occur in this
program's dicts. -/
inductive JVal where
  | null : JVal
  | bool : Bool → JVal
  | num : Int → JVal
  | str : String → JVal
  | arr : List JVal → JVal
  | obj : List (String × JVal) → JVal

/-- Python `d.get(key)` on a dict: the first binding of `key`, or `None`. -/
def dictGet (kvs : List (String × JVal)) (key : String) : Option JVal :=
  match kvs.find? (fun p => p.1 == key) with
  | some p => some p.2
  | none => none

/-- Python `x is True`: `x` is exactly the boolean `True` — not `1`, not
`"true"`, not a missing key. -/
def isTrueVal : Option JVal → Bool
  | some (JVal.bool true) => true
  | _ => false

/-! ## The audit core, translated from `main.py` -/

/-- `LEGAL_VALIDATORS_WHITELIST`: the wallets allowed to request an audit
(Hardhat's default account 0). -/
def LEGAL_VALIDATORS_WHITELIST : List String :=
  ["0xf39Fd6e51aad88F6F4ce6aB8827279cffFb92266"]

/-- `TokenizationRequest`: the request body. -/
structure TokenizationRequest where
  wallet_address : String
  signature : String
  document_content : String

/-- `verify_signature`: EIP-191 recovery (the `recover` oracle stands for
`Account.recover_message ∘ encode_defunct`; `none` is the library raising),
then case-insensitive comparison with `wallet_address`. The `try/except`
of the source makes every failure `False`; totality of this definition is
the "never throws" discipline. -/
def verify_signature (recover : String → String → Option String)
    (wallet_address signature message : String) : Bool :=
  match recover message signature with
  | some recovered_address => pyLower recovered_address == pyLower wallet_address
  | none => false

/-- `RWA_AUDITOR_SYSTEM_PROMPT`: the fixed system instruction of the
AI-backed analyzer. -/
def RWA_AUDITOR_SYSTEM_PROMPT : String :=
  "Eres un auditor legal especializado en Activos del Mundo Real (RWA) bajo el Modelo 4 de liquidez.\nAnaliza el texto del contrato legal y responde ÚNICAMENTE con un JSON válido, sin markdown ni texto extra.\nFormato obligatorio: \x7b\"approved\": true|false, \"risk_score\": número del 1 al 10 si approved es true\x7d\n- approved: true solo si el documento es adecuado para tokenización (cláusulas de redención, colateral y cumplimiento normativo claros).\n- risk_score: 1 = mínimo riesgo, 10 = máximo riesgo. Solo incluir si approved es true."

/-- The `(role, content)` messages sent to the chat completion: the system
prompt and the user text truncated to its first 12000 code points
(`text[:12000]`). -/
def aiMessages (text : String) : List (String × String) :=
  [("system", RWA_AUDITOR_SYSTEM_PROMPT),
   ("user", (text.toList.take 12000).asString)]

/-- Python `content or "{}"`: `None` and the empty string both fall back to
`"{}"`. -/
def contentOrDefault : Option String → String
  | none => "\x7b\x7d"
  | some c => if c = "" then "\x7b\x7d" else c

/-- Modelled from the spec's words, for comparison with the source's
cleanup (`cleanContentL` below): strip exactly those lines that are purely
a code-fence delimiter, leaving all other lines of the output unchanged. -/
def stripPureFenceLinesSpec (content : String) : String :=
  (joinNL ((splitNL content.toList).filter (fun l => !(pyStripL l == fenceMark)))).asString

/-- The markdown cleanup before `json.loads`: strip outer whitespace, and
iff the result starts with `` ``` ``, drop every line whose stripped form
starts with `` ``` ``. -/
def cleanContentL (cs : List Char) : List Char :=
  let s := pyStripL cs
  if startsFence s then
    joinNL ((splitNL s).filter (fun l => !startsFence (pyStripL l)))
  else s

/-- `cleanContent` on `String`s. -/
def cleanContent (content : String) : String :=
  (cleanContentL content.toList).asString

/-- The body of the `try` block of the AI-backed branch: call the backend
on the messages, default the content, clean the markdown, parse as JSON.
`Except.error e` is any exception raised inside the `try`. -/
def ai_try (backend : List (String × String) → Except String (Option String))
    (jparse : String → Except String JVal) (text : String) : Except String JVal :=
  match backend (aiMessages text) with
  | Except.error e => Except.error e
  | Except.ok c => jparse (cleanContent (contentOrDefault c))

/-- The AI-backed branch of `analyze_legal_document`: the `try` block, with
the `except` clause returning `{"approved": False, "error": str(e)}`. -/
def analyze_ai (backend : List (String × String) → Except String (Option String))
    (jparse : String → Except String JVal) (text : String) : JVal :=
  match ai_try backend jparse text with
  | Except.ok v => v
  | Except.error e => JVal.obj [("approved", JVal.bool false), ("error", JVal.str e)]

/-- The simulated branch of `analyze_legal_document` (no API key): approve
iff the lowercased text contains both `"redención"` and `"colateral"`,
with fixed `risk_score` 1. -/
def analyze_simulated (text : String) : JVal :=
  let text_lower := pyLowerL text.toList
  if containsSub "redención".toList text_lower &&
     containsSub "colateral".toList text_lower then
    JVal.obj [("approved", JVal.bool true), ("risk_score", JVal.num 1)]
  else
    JVal.obj [("approved", JVal.bool false)]

/-- Python `api_key and api_key.strip()` truthiness: a configured key is a
non-`None`, non-empty string whose strip is non-empty. -/
def hasApiKey : Option String → Bool
  | none => false
  | some k => !(k == "") && !(pyStrip k == "")

/-- `analyze_legal_document`: AI-backed when an API key is configured,
simulated rule otherwise. -/
def analyze_legal_document (api_key : Option String)
    (backend : List (String × String) → Except String (Option String))
    (jparse : String → Except String JVal) (text : String) : JVal :=
  if hasApiKey api_key then analyze_ai backend jparse text
  else analyze_simulated text

/-- The detail string of the 403 response. -/
def WALLET_NOT_AUTHORIZED_DETAIL : String :=
  "Wallet no autorizada en la whitelist de validadores legales"

/-- The detail string of the 401 response. -/
def INVALID_SIGNATURE_DETAIL : String :=
  "Firma inválida: no coincide con la wallet o el contenido del documento"

/-- What the `audit_contract` handler gives FastAPI: an
`HTTPException(status_code, detail)`, a JSON body (HTTP 200), or an
uncaught Python exception (the `.get` call on a non-dict analysis value). -/
inductive AuditResult where
  | httpError : Nat → String → AuditResult
  | ok : List (String × JVal) → AuditResult
  | pythonError : AuditResult

/-- Step 4 of the handler (outcome assembly), keyed on
`ai_result.get("approved") is True`. A non-dict analysis value makes the
`.get` attribute access raise an uncaught `AttributeError`
(`pythonError`). -/
def outcome_assembly (document_content : String) (ai_result : JVal) : AuditResult :=
  match ai_result with
  | JVal.obj kvs =>
    if isTrueVal (dictGet kvs "approved") then
      AuditResult.ok
        [("status", JVal.str "success"),
         ("audit_result", JVal.obj kvs),
         ("document_hash", JVal.str (sha256hex (strUtf8 document_content))),
         ("signature_from_oracle", JVal.str "simulated_signature_0x123")]
    else
      AuditResult.ok
        [("status", JVal.str "rejected"),
         ("audit_result", JVal.obj kvs)]
  | _ => AuditResult.pythonError

/-- `audit_contract`: the `/audit-contract` handler. Whitelist gate
(case-insensitive, 403), signature gate (401), analysis, then outcome
assembly. The analyzer is a parameter so the theorems can quantify over
both variants and over stubbed backends. -/
def audit_contract (recover : String → String → Option String)
    (analyze : String → JVal) (body : TokenizationRequest) : AuditResult :=
  let allowed_wallets := LEGAL_VALIDATORS_WHITELIST.map pyLower
  if allowed_wallets.contains (pyLower body.wallet_address) = false then
    AuditResult.httpError 403 WALLET_NOT_AUTHORIZED_DETAIL
  else if verify_signature recover body.wallet_address body.signature
      body.document_content = false then
    AuditResult.httpError 401 INVALID_SIGNATURE_DETAIL
  else
    outcome_assembly body.document_content (analyze body.document_content)

/-! ## Helper lemmas -/

set_option maxRecDepth 10000

/-- Python substring containment is list-infix: `containsSub n h` succeeds
exactly when `n` occurs contiguously somewhere in `h`. -/
theorem containsSub_iff (n h : List Char) : containsSub n h = true ↔ n <:+: h := by
  induction h with
  | nil =>
    simp only [containsSub]
    rw [List.isPrefixOf_iff_prefix]
    simp [List.prefix_nil, List.infix_nil]
  | cons a t ih =>
    simp only [containsSub, Bool.or_eq_true, ih, List.isPrefixOf_iff_prefix]
    exact List.infix_cons_iff.symm

/-- `isTrueVal` holds exactly on the boolean `True`. -/
theorem isTrueVal_iff (o : Option JVal) :
    isTrueVal o = true ↔ o = some (JVal.bool true) := by
  match o with
  | none => simp [isTrueVal]
  | some JVal.null => simp [isTrueVal]
  | some (JVal.bool true) => simp [isTrueVal]
  | some (JVal.bool false) => simp [isTrueVal]
  | some (JVal.num n) => simp [isTrueVal]
  | some (JVal.str s) => simp [isTrueVal]
  | some (JVal.arr l) => simp [isTrueVal]
  | some (JVal.obj l) => simp [isTrueVal]

/-- Outcome assembly never produces an `HTTPException`: its results are a
200 body or an uncaught Python error. -/
theorem outcome_assembly_ne_httpError (dc : String) (v : JVal)
    (code : Nat) (detail : String) :
    outcome_assembly dc v ≠ AuditResult.httpError code detail := by
  cases v <;> simp only [outcome_assembly] <;> intro hcon
  case obj kvs =>
    by_cases hap : isTrueVal (dictGet kvs "approved") = true
    · rw [if_pos hap] at hcon; exact AuditResult.noConfusion hcon
    · rw [if_neg hap] at hcon; exact AuditResult.noConfusion hcon
  all_goals exact AuditResult.noConfusion hcon

/-- `hexDigit` of a value below 16 is a lowercase hex character. -/
theorem hexDigit_mem_hexChars (n : Nat) (h : n < 16) :
    hexDigit n ∈ "0123456789abcdef".toList := by
  interval_cases n <;> decide

/-- Every byte `be32` emits is below 256. -/
theorem be32_byte_lt (w b : Nat) (h : b ∈ be32 w) : b < 256 := by
  simp only [be32, List.mem_cons, List.not_mem_nil, or_false] at h
  rcases h with h | h | h | h <;> subst h <;> omega

/-- Every byte of a SHA-256 digest is below 256. -/
theorem sha256_byte_lt (m : List Nat) : ∀ b ∈ sha256 m, b < 256 := by
  intro b hb
  simp only [sha256, List.mem_flatMap] at hb
  obtain ⟨w, _, hw⟩ := hb
  exact be32_byte_lt w b hw

/-- A SHA-256 hexdigest consists of lowercase hex characters only. -/
theorem sha256hex_mem_hexChars (m : List Nat) :
    ∀ c ∈ (sha256hex m).toList, c ∈ "0123456789abcdef".toList := by
  intro c hc
  have he : (sha256hex m).toList = (sha256 m).flatMap byteToHex := rfl
  rw [he, List.mem_flatMap] at hc
  obtain ⟨b, hb, hcb⟩ := hc
  have hblt := sha256_byte_lt m b hb
  simp only [byteToHex, List.mem_cons, List.not_mem_nil, or_false] at hcb
  rcases hcb with h | h <;> subst h <;> exact hexDigit_mem_hexChars _ (by omega)

/-- No chunk produced by `splitNL` contains a newline. -/
theorem mem_splitNL_no_newline (cs : List Char) : ∀ l ∈ splitNL cs, '\n' ∉ l := by
  induction cs with
  | nil =>
    intro l hl
    simp only [splitNL, List.mem_singleton] at hl
    subst hl; simp
  | cons c rest ih =>
    intro l hl
    by_cases hc : c = '\n'
    · subst hc
      rw [show splitNL ('\n' :: rest) = [] :: splitNL rest from by simp [splitNL]] at hl
      rcases List.mem_cons.mp hl with h | h
      · subst h; simp
      · exact ih l h
    · have hunfold : splitNL (c :: rest) =
          match splitNL rest with
          | [] => [[c]]
          | hd :: tl => (c :: hd) :: tl := by
        simp [splitNL, hc]
      rw [hunfold] at hl
      cases hsp2 : splitNL rest with
      | nil =>
        rw [hsp2] at hl
        simp only [List.mem_singleton] at hl
        subst hl
        intro hm
        rcases List.mem_cons.mp hm with h' | h'
        · exact hc h'.symm
        · simp at h'
      | cons hd tl =>
        rw [hsp2] at hl
        rcases List.mem_cons.mp hl with h | h
        · subst h
          intro hm
          rcases List.mem_cons.mp hm with h' | h'
          · exact hc h'.symm
          · exact ih hd (by rw [hsp2]; exact List.mem_cons_self hd tl) h'
        · exact ih l (by rw [hsp2]; exact List.mem_cons_of_mem hd h)

/-- A newline-free list is a single chunk for `splitNL`. -/
theorem splitNL_eq_single (l : List Char) (h : '\n' ∉ l) : splitNL l = [l] := by
  induction l with
  | nil => rfl
  | cons c rest ih =>
    have hc : c ≠ '\n' := fun he => h (he ▸ List.mem_cons_self c rest)
    have hrest : '\n' ∉ rest := fun hm => h (List.mem_cons_of_mem c hm)
    simp only [splitNL, if_neg hc, ih hrest]

/-- `splitNL` splits off a leading newline-free chunk. -/
theorem splitNL_append (l m : List Char) (h : '\n' ∉ l) :
    splitNL (l ++ '\n' :: m) = l :: splitNL m := by
  induction l with
  | nil => simp [splitNL]
  | cons c rest ih =>
    have hc : c ≠ '\n' := fun he => h (he ▸ List.mem_cons_self c rest)
    have hrest : '\n' ∉ rest := fun hm => h (List.mem_cons_of_mem c hm)
    rw [List.cons_append]
    have hunfold : splitNL (c :: (rest ++ '\n' :: m)) =
        match splitNL (rest ++ '\n' :: m) with
        | [] => [[c]]
        | hd :: tl => (c :: hd) :: tl := by
      simp [splitNL, hc]
    rw [hunfold, ih hrest]

/-- `splitNL` undoes `joinNL` on a nonempty list of newline-free chunks. -/
theorem splitNL_joinNL (ls : List (List Char)) (hne : ls ≠ [])
    (h : ∀ l ∈ ls, '\n' ∉ l) : splitNL (joinNL ls) = ls := by
  induction ls with
  | nil => exact absurd rfl hne
  | cons l ls' ih =>
    cases ls' with
    | nil => exact splitNL_eq_single l (h l (List.mem_cons_self l []))
    | cons l2 ls'' =>
      have hstep : joinNL (l :: l2 :: ls'') = l ++ '\n' :: joinNL (l2 :: ls'') := rfl
      rw [hstep, splitNL_append l _ (h l (List.mem_cons_self l _)),
        ih (by simp) (fun x hx => h x (List.mem_cons_of_mem l hx))]

/-- FIPS 180-4 test vector grounding the digest model: the empty message. -/
theorem sha256hex_nil :
    sha256hex [] = "e3b0c44298fc1c149afbf4c8996fb92427ae41e4649b934ca495991b7852b855" := by
  decide

/-- FIPS 180-4 test vector grounding the digest model: `"abc"`. -/
theorem sha256hex_abc :
    sha256hex (strUtf8 "abc") =
      "ba7816bf8f01cfea414140de5dae2223b00361a396177a9cb410ff61f20015ad" := by
  decide

/-! ## Claim theorems -/

/-- C1: a request whose lowercased wallet is not in the lowercased
whitelist fails with HTTP 403 for every recovery oracle, every analyzer
and every signature — the conclusion does not depend on `recover`,
`analyze` or `body.signature`, so neither the signature verifier nor the
document analyzer is invoked. -/
theorem audit_contract_unauthorized_403
    (recover : String → String → Option String) (analyze : String → JVal)
    (body : TokenizationRequest)
    (h : (LEGAL_VALIDATORS_WHITELIST.map pyLower).contains
        (pyLower body.wallet_address) = false) :
    audit_contract recover analyze body =
      AuditResult.httpError 403 WALLET_NOT_AUTHORIZED_DETAIL := by
  unfold audit_contract
  simp only [h]
  rfl

/-- Witness for C1: a concrete non-whitelisted wallet is refused with 403
under a stub verifier and a stub analyzer. -/
theorem audit_contract_unauthorized_403_witness :
    audit_contract (fun _ _ => none) (fun _ => JVal.null)
        ⟨"0x1111111111111111111111111111111111111111", "0xsig", "doc"⟩ =
      AuditResult.httpError 403 WALLET_NOT_AUTHORIZED_DETAIL :=
  audit_contract_unauthorized_403 _ _ _ (by decide)

/-- C2: a whitelisted wallet whose signature does not verify fails with
HTTP 401 for every analyzer — the conclusion does not depend on `analyze`,
so the document analyzer is not invoked. -/
theorem audit_contract_invalid_signature_401
    (recover : String → String → Option String) (analyze : String → JVal)
    (body : TokenizationRequest)
    (hw : (LEGAL_VALIDATORS_WHITELIST.map pyLower).contains
        (pyLower body.wallet_address) = true)
    (hs : verify_signature recover body.wallet_address body.signature
        body.document_content = false) :
    audit_contract recover analyze body =
      AuditResult.httpError 401 INVALID_SIGNATURE_DETAIL := by
  unfold audit_contract
  simp only [hw, hs]
  rfl

/-- Witness for C2: the whitelisted wallet (in different letter case) with
a recovery oracle that always fails is refused with 401. -/
theorem audit_contract_invalid_signature_401_witness :
    audit_contract (fun _ _ => none) (fun _ => JVal.null)
        ⟨"0xF39FD6E51AAD88F6F4CE6AB8827279CFFFB92266", "0xsig", "doc"⟩ =
      AuditResult.httpError 401 INVALID_SIGNATURE_DETAIL :=
  audit_contract_invalid_signature_401 _ _ _ (by decide) (by decide)

/-- C5: `verify_signature` is a total boolean function of the recovery
oracle's outcome: it returns `true` exactly when recovery succeeds with an
address equal to `wallet_address` up to case, and returns `false` (rather
than raising) whenever the library raises. -/
theorem verify_signature_characterization
    (recover : String → String → Option String) (w s m : String) :
    (verify_signature recover w s m = true ↔
      ∃ a, recover m s = some a ∧ pyLower a = pyLower w) ∧
    (recover m s = none → verify_signature recover w s m = false) := by
  unfold verify_signature
  cases hr : recover m s with
  | none => simp
  | some a => simp [beq_iff_eq]

/-- Witness for C5: a recovery oracle returning the uppercase form of the
wallet makes verification succeed on the lowercase wallet. -/
theorem verify_signature_characterization_witness :
    verify_signature (fun _ _ => some "0xAB12") "0xab12" "sig" "msg" = true :=
  (verify_signature_characterization (fun _ _ => some "0xAB12")
    "0xab12" "sig" "msg").1.mpr ⟨"0xAB12", rfl, by decide⟩

/-- C3: with no API key configured, the analyzer approves exactly when the
lowercased text contains both keyword substrings — as contiguous occurrences
anywhere, so independent of order and surrounding text — with fixed
`risk_score` 1; otherwise it returns only `approved = false`, with no
`risk_score`. -/
theorem rule_analyzer_keyword_gate
    (backend : List (String × String) → Except String (Option String))
    (jparse : String → Except String JVal) (text : String) :
    (analyze_legal_document none backend jparse text =
        JVal.obj [("approved", JVal.bool true), ("risk_score", JVal.num 1)] ↔
      ("redención".toList <:+: pyLowerL text.toList ∧
       "colateral".toList <:+: pyLowerL text.toList)) ∧
    (¬ ("redención".toList <:+: pyLowerL text.toList ∧
        "colateral".toList <:+: pyLowerL text.toList) →
      analyze_legal_document none backend jparse text =
        JVal.obj [("approved", JVal.bool false)]) := by
  have hnone : analyze_legal_document none backend jparse text =
      analyze_simulated text := rfl
  have key : analyze_simulated text =
      if ("redención".toList <:+: pyLowerL text.toList ∧
          "colateral".toList <:+: pyLowerL text.toList) then
        JVal.obj [("approved", JVal.bool true), ("risk_score", JVal.num 1)]
      else JVal.obj [("approved", JVal.bool false)] := by
    show (if (containsSub "redención".toList (pyLowerL text.toList) &&
        containsSub "colateral".toList (pyLowerL text.toList)) = true then
        JVal.obj [("approved", JVal.bool true), ("risk_score", JVal.num 1)]
      else JVal.obj [("approved", JVal.bool false)]) = _
    by_cases h : ("redención".toList <:+: pyLowerL text.toList ∧
        "colateral".toList <:+: pyLowerL text.toList)
    · rw [if_pos h]
      rw [(containsSub_iff "redención".toList (pyLowerL text.toList)).mpr h.1,
        (containsSub_iff "colateral".toList (pyLowerL text.toList)).mpr h.2]
      rfl
    · rw [if_neg h]
      cases hb1 : containsSub "redención".toList (pyLowerL text.toList) with
      | false => rfl
      | true =>
        have hb2 : containsSub "colateral".toList (pyLowerL text.toList) = false := by
          cases hb2 : containsSub "colateral".toList (pyLowerL text.toList) with
          | false => rfl
          | true =>
            exact absurd ⟨(containsSub_iff _ _).mp hb1, (containsSub_iff _ _).mp hb2⟩ h
        rw [hb2]
        rfl
  rw [hnone, key]
  by_cases h : ("redención".toList <:+: pyLowerL text.toList ∧
      "colateral".toList <:+: pyLowerL text.toList)
  · rw [if_pos h]
    exact ⟨⟨fun _ => h, fun _ => rfl⟩, fun hn => absurd h hn⟩
  · rw [if_neg h]
    refine ⟨⟨fun heq => ?_, fun hcon => absurd hcon h⟩, fun _ => rfl⟩
    exact absurd heq (by simp)

/-- Witness for C3: a text with the keywords in the other order, in
uppercase (including the accented `Ó`), amid other words, is approved with
`risk_score` 1. -/
theorem rule_analyzer_keyword_gate_witness :
    analyze_legal_document none (fun _ => Except.error "unused")
        (fun _ => Except.error "unused")
        "Contrato con COLATERAL pleno y cláusula de REDENCIÓN anticipada" =
      JVal.obj [("approved", JVal.bool true), ("risk_score", JVal.num 1)] :=
  (rule_analyzer_keyword_gate _ _ _).1.mpr ⟨by decide, by decide⟩

/-- C4: once both gates pass and the analysis returned a dict, a verdict
whose `"approved"` is exactly `True` yields status `"success"` with
`document_hash` the lowercase-hex SHA-256 of the UTF-8 encoding of the
document and the fixed placeholder attestation; any other verdict yields
status `"rejected"` with neither a `document_hash` nor a
`signature_from_oracle` key. -/
theorem audit_contract_outcome_assembly
    (recover : String → String → Option String) (analyze : String → JVal)
    (body : TokenizationRequest) (kvs : List (String × JVal))
    (hw : (LEGAL_VALIDATORS_WHITELIST.map pyLower).contains
        (pyLower body.wallet_address) = true)
    (hs : verify_signature recover body.wallet_address body.signature
        body.document_content = true)
    (ha : analyze body.document_content = JVal.obj kvs) :
    (dictGet kvs "approved" = some (JVal.bool true) →
      audit_contract recover analyze body =
        AuditResult.ok
          [("status", JVal.str "success"),
           ("audit_result", JVal.obj kvs),
           ("document_hash", JVal.str (sha256hex (strUtf8 body.document_content))),
           ("signature_from_oracle", JVal.str "simulated_signature_0x123")] ∧
      (∀ c ∈ (sha256hex (strUtf8 body.document_content)).toList,
        c ∈ "0123456789abcdef".toList)) ∧
    (dictGet kvs "approved" ≠ some (JVal.bool true) →
      audit_contract recover analyze body =
        AuditResult.ok
          [("status", JVal.str "rejected"), ("audit_result", JVal.obj kvs)] ∧
      dictGet [("status", JVal.str "rejected"), ("audit_result", JVal.obj kvs)]
        "document_hash" = none ∧
      dictGet [("status", JVal.str "rejected"), ("audit_result", JVal.obj kvs)]
        "signature_from_oracle" = none) := by
  have hbase : audit_contract recover analyze body =
      if isTrueVal (dictGet kvs "approved") then
        AuditResult.ok
          [("status", JVal.str "success"),
           ("audit_result", JVal.obj kvs),
           ("document_hash", JVal.str (sha256hex (strUtf8 body.document_content))),
           ("signature_from_oracle", JVal.str "simulated_signature_0x123")]
      else
        AuditResult.ok
          [("status", JVal.str "rejected"), ("audit_result", JVal.obj kvs)] := by
    unfold audit_contract
    simp only [hw, hs]
    rw [ha]
    rfl
  constructor
  · intro hap
    rw [hbase, if_pos ((isTrueVal_iff _).mpr hap)]
    exact ⟨rfl, fun c hc => sha256hex_mem_hexChars _ c hc⟩
  · intro hap
    have htv : ¬ isTrueVal (dictGet kvs "approved") = true :=
      fun hiv => absurd ((isTrueVal_iff _).mp hiv) hap
    rw [hbase, if_neg htv]
    exact ⟨rfl, rfl, rfl⟩

/-- Witness for C4: the whitelisted wallet with a matching recovery oracle
and an approving analyzer gets a success response whose hash is the known
SHA-256 of `"abc"`. -/
theorem audit_contract_outcome_assembly_witness :
    audit_contract (fun _ _ => some "0xf39fd6e51aad88f6f4ce6ab8827279cfffb92266")
        (fun _ => JVal.obj [("approved", JVal.bool true)])
        ⟨"0xf39Fd6e51aad88F6F4ce6aB8827279cffFb92266", "0xsig", "abc"⟩ =
      AuditResult.ok
        [("status", JVal.str "success"),
         ("audit_result", JVal.obj [("approved", JVal.bool true)]),
         ("document_hash", JVal.str (sha256hex (strUtf8 "abc"))),
         ("signature_from_oracle", JVal.str "simulated_signature_0x123")] ∧
    sha256hex (strUtf8 "abc") =
      "ba7816bf8f01cfea414140de5dae2223b00361a396177a9cb410ff61f20015ad" :=
  ⟨((audit_contract_outcome_assembly
      (fun _ _ => some "0xf39fd6e51aad88f6f4ce6ab8827279cfffb92266")
      (fun _ => JVal.obj [("approved", JVal.bool true)])
      ⟨"0xf39Fd6e51aad88F6F4ce6aB8827279cffFb92266", "0xsig", "abc"⟩
      [("approved", JVal.bool true)]
      (by decide) (by decide) rfl).1 rfl).1,
   sha256hex_abc⟩

/-- C6: whenever the `try` block of the AI-backed analyzer fails — the
backend call raising (network, auth, timeout) or `json.loads` raising on
malformed output — the analyzer returns `approved = false` with the error
detail instead of raising, and the pipeline (gates passed) returns status
`"rejected"` instead of crashing. -/
theorem analyze_ai_failure_degrades_to_rejection
    (recover : String → String → Option String)
    (backend : List (String × String) → Except String (Option String))
    (jparse : String → Except String JVal)
    (body : TokenizationRequest) (e : String)
    (hw : (LEGAL_VALIDATORS_WHITELIST.map pyLower).contains
        (pyLower body.wallet_address) = true)
    (hs : verify_signature recover body.wallet_address body.signature
        body.document_content = true)
    (hfail : ai_try backend jparse body.document_content = Except.error e) :
    analyze_ai backend jparse body.document_content =
      JVal.obj [("approved", JVal.bool false), ("error", JVal.str e)] ∧
    audit_contract recover (analyze_ai backend jparse) body =
      AuditResult.ok
        [("status", JVal.str "rejected"),
         ("audit_result", JVal.obj [("approved", JVal.bool false), ("error", JVal.str e)])] := by
  have h1 : analyze_ai backend jparse body.document_content =
      JVal.obj [("approved", JVal.bool false), ("error", JVal.str e)] := by
    unfold analyze_ai
    rw [hfail]
  refine ⟨h1, ?_⟩
  unfold audit_contract
  simp only [hw, hs]
  rw [h1]
  rfl

/-- Witness for C6: a backend that raises `"timeout"` yields a rejected
verdict carrying that detail, and the pipeline answers `"rejected"`. -/
theorem analyze_ai_failure_degrades_to_rejection_witness :
    analyze_ai (fun _ => Except.error "timeout") (fun _ => Except.error "bad json") "doc" =
      JVal.obj [("approved", JVal.bool false), ("error", JVal.str "timeout")] ∧
    audit_contract (fun _ _ => some "0xf39fd6e51aad88f6f4ce6ab8827279cfffb92266")
        (analyze_ai (fun _ => Except.error "timeout") (fun _ => Except.error "bad json"))
        ⟨"0xf39Fd6e51aad88F6F4ce6aB8827279cffFb92266", "0xsig", "doc"⟩ =
      AuditResult.ok
        [("status", JVal.str "rejected"),
         ("audit_result", JVal.obj [("approved", JVal.bool false), ("error", JVal.str "timeout")])] :=
  analyze_ai_failure_degrades_to_rejection
    (fun _ _ => some "0xf39fd6e51aad88f6f4ce6ab8827279cfffb92266")
    (fun _ => Except.error "timeout") (fun _ => Except.error "bad json")
    ⟨"0xf39Fd6e51aad88F6F4ce6aB8827279cffFb92266", "0xsig", "doc"⟩ "timeout"
    (by decide) (by decide) rfl

/-- C9: the user message submitted by the AI-backed analyzer is exactly the
first 12000 code points of the input — never more than 12000 — and the
analyzer's outcome is unchanged by dropping everything past that cap, for
every backend and parser: longer input is silently truncated, not
rejected. -/
theorem analyze_ai_truncates_input (text : String) :
    ((aiMessages text).getD 1 ("", "")).2.toList = text.toList.take 12000 ∧
    ((aiMessages text).getD 1 ("", "")).2.toList.length ≤ 12000 ∧
    ∀ (backend : List (String × String) → Except String (Option String))
      (jparse : String → Except String JVal),
      analyze_ai backend jparse text =
        analyze_ai backend jparse ((text.toList.take 12000).asString) := by
  refine ⟨rfl, ?_, ?_⟩
  · show (text.toList.take 12000).length ≤ 12000
    rw [List.length_take]
    exact min_le_left _ _
  · intro backend jparse
    have h2 : (((text.toList.take 12000).asString).toList).take 12000 =
        text.toList.take 12000 := by
      show (text.toList.take 12000).take 12000 = _
      rw [List.take_take]
      simp
    have hmsg : aiMessages ((text.toList.take 12000).asString) = aiMessages text := by
      simp only [aiMessages, h2]
    unfold analyze_ai ai_try
    rw [hmsg]

/-- C10: once both gates pass and the analysis returned a dict, the
response has status `"success"` exactly when the dict maps `"approved"` to
the boolean `True`; a missing key or any other value (the string
`"true"`, the number 1, ...) yields status `"rejected"`. -/
theorem audit_contract_success_iff_exact_true
    (recover : String → String → Option String) (analyze : String → JVal)
    (body : TokenizationRequest) (kvs : List (String × JVal))
    (hw : (LEGAL_VALIDATORS_WHITELIST.map pyLower).contains
        (pyLower body.wallet_address) = true)
    (hs : verify_signature recover body.wallet_address body.signature
        body.document_content = true)
    (ha : analyze body.document_content = JVal.obj kvs) :
    ((∃ rest, audit_contract recover analyze body =
        AuditResult.ok (("status", JVal.str "success") :: rest)) ↔
      dictGet kvs "approved" = some (JVal.bool true)) ∧
    (dictGet kvs "approved" ≠ some (JVal.bool true) →
      audit_contract recover analyze body =
        AuditResult.ok
          [("status", JVal.str "rejected"), ("audit_result", JVal.obj kvs)]) := by
  have hbase : audit_contract recover analyze body =
      if isTrueVal (dictGet kvs "approved") then
        AuditResult.ok
          [("status", JVal.str "success"),
           ("audit_result", JVal.obj kvs),
           ("document_hash", JVal.str (sha256hex (strUtf8 body.document_content))),
           ("signature_from_oracle", JVal.str "simulated_signature_0x123")]
      else
        AuditResult.ok
          [("status", JVal.str "rejected"), ("audit_result", JVal.obj kvs)] := by
    unfold audit_contract
    simp only [hw, hs]
    rw [ha]
    rfl
  by_cases hap : isTrueVal (dictGet kvs "approved") = true
  · rw [hbase, if_pos hap]
    refine ⟨⟨fun _ => (isTrueVal_iff _).mp hap, fun _ => ⟨_, rfl⟩⟩, ?_⟩
    intro hne
    exact absurd ((isTrueVal_iff _).mp hap) hne
  · rw [hbase, if_neg hap]
    refine ⟨⟨?_, ?_⟩, fun _ => rfl⟩
    · rintro ⟨rest, hre⟩
      exfalso
      simp at hre
    · intro htrue
      exact absurd ((isTrueVal_iff _).mpr htrue) hap

/-- Witness for C10: an analysis dict mapping `"approved"` to the string
`"true"` (as a misbehaving AI backend could emit) is rejected. -/
theorem audit_contract_success_iff_exact_true_witness :
    audit_contract (fun _ _ => some "0xf39fd6e51aad88f6f4ce6ab8827279cfffb92266")
        (fun _ => JVal.obj [("approved", JVal.str "true")])
        ⟨"0xf39Fd6e51aad88F6F4ce6aB8827279cffFb92266", "0xsig", "doc2"⟩ =
      AuditResult.ok
        [("status", JVal.str "rejected"),
         ("audit_result", JVal.obj [("approved", JVal.str "true")])] :=
  (audit_contract_success_iff_exact_true _ _ _ [("approved", JVal.str "true")]
    (by decide) (by decide) rfl).2
    (fun hcon => JVal.noConfusion (Option.some.inj hcon))

/-- C7 counterexample: on output `"x\n```"` the source's cleanup removes
nothing — the stripping is conditional on the whole (stripped) output
starting with `` ``` `` — while stripping exactly the lines that are purely
a code-fence delimiter would drop the final `` ``` `` line and leave
`"x"`. -/
theorem cleanContent_counterexample :
    stripPureFenceLinesSpec "x\n```" = "x" ∧
    cleanContent "x\n```" = "x\n```" ∧
    cleanContent "x\n```" ≠ stripPureFenceLinesSpec "x\n```" := by
  decide

/-- C7 amended: when the stripped output does not start with `` ``` `` the
cleanup parses it unchanged (beyond outer whitespace stripping) even if it
contains fence-delimiter lines; when it does start with `` ``` ``, the
cleanup removes exactly the lines whose stripped form starts with
`` ``` `` (fence delimiters with or without an info string or trailing
text) and keeps every other line unchanged. -/
theorem cleanContent_characterization (content : String) :
    (startsFence (pyStripL content.toList) = false →
      cleanContent content = pyStrip content) ∧
    (startsFence (pyStripL content.toList) = true →
      ((splitNL (pyStripL content.toList)).filter
          (fun l => !startsFence (pyStripL l)) = [] ∧ cleanContent content = "") ∨
      splitNL (cleanContent content).toList =
        (splitNL (pyStripL content.toList)).filter
          (fun l => !startsFence (pyStripL l))) := by
  constructor
  · intro h
    simp only [cleanContent, cleanContentL, h]
    rfl
  · intro h
    have hclean : cleanContent content =
        (joinNL ((splitNL (pyStripL content.toList)).filter
          (fun l => !startsFence (pyStripL l)))).asString := by
      simp only [cleanContent, cleanContentL, h]
      rfl
    cases hL : (splitNL (pyStripL content.toList)).filter
        (fun l => !startsFence (pyStripL l)) with
    | nil =>
      left
      refine ⟨rfl, ?_⟩
      rw [hclean, hL]
      rfl
    | cons hd tl =>
      right
      rw [hclean, hL]
      have hmem : ∀ l ∈ hd :: tl, '\n' ∉ l := by
        intro l hl
        have hmem2 : l ∈ (splitNL (pyStripL content.toList)).filter
            (fun x => !startsFence (pyStripL x)) := by
          rw [hL]; exact hl
        exact mem_splitNL_no_newline _ l (List.mem_of_mem_filter hmem2)
      have hback : ((joinNL (hd :: tl)).asString).toList = joinNL (hd :: tl) := rfl
      rw [hback]
      exact splitNL_joinNL (hd :: tl) (by simp) hmem

/-- Witness for C7 amended: a fenced `` ```json `` block is reduced to its
payload line. -/
theorem cleanContent_characterization_witness :
    splitNL (cleanContent "```json\nA\n```").toList = [['A']] := by
  have h := (cleanContent_characterization "```json\nA\n```").2 (by decide)
  rcases h with ⟨hnil, _⟩ | h
  · exact absurd hnil (by decide)
  · rw [h]; decide

/-- C8 counterexample: the 403 response carries the Spanish detail string
of the source, not the English message the claim states (and the 401
detail is likewise Spanish). -/
theorem audit_contract_detail_counterexample :
    audit_contract (fun _ _ => none) (fun _ => JVal.null)
        ⟨"0x2222222222222222222222222222222222222222", "0xsig", "doc"⟩ =
      AuditResult.httpError 403
        "Wallet no autorizada en la whitelist de validadores legales" ∧
    "Wallet no autorizada en la whitelist de validadores legales" ≠
      "wallet not authorized" ∧
    "Firma inválida: no coincide con la wallet o el contenido del documento" ≠
      "signature does not match wallet or content" :=
  ⟨rfl, by decide, by decide⟩

/-- C8 amended: every non-200 outcome of `audit_contract` is either
HTTP 403 with detail `"Wallet no autorizada en la whitelist de validadores
legales"` or HTTP 401 with detail `"Firma inválida: no coincide con la
wallet o el contenido del documento"` — no other error status or detail is
produced. -/
theorem audit_contract_error_statuses
    (recover : String → String → Option String) (analyze : String → JVal)
    (body : TokenizationRequest) (code : Nat) (detail : String)
    (h : audit_contract recover analyze body = AuditResult.httpError code detail) :
    (code = 403 ∧ detail = WALLET_NOT_AUTHORIZED_DETAIL) ∨
    (code = 401 ∧ detail = INVALID_SIGNATURE_DETAIL) := by
  unfold audit_contract at h
  cases hg1 : (LEGAL_VALIDATORS_WHITELIST.map pyLower).contains
      (pyLower body.wallet_address) with
  | false =>
    simp only [hg1, eq_self_iff_true, if_true] at h
    injection h with h1 h2
    exact Or.inl ⟨h1.symm, h2.symm⟩
  | true =>
    simp only [hg1] at h
    cases hg2 : verify_signature recover body.wallet_address body.signature
        body.document_content with
    | false =>
      simp only [hg2, eq_self_iff_true, if_true] at h
      injection h with h1 h2
      exact Or.inr ⟨h1.symm, h2.symm⟩
    | true =>
      simp only [hg2] at h
      exact absurd h (outcome_assembly_ne_httpError _ _ _ _)

/-- Witness for C8 amended: instantiated on a concrete 403 outcome. -/
theorem audit_contract_error_statuses_witness :
    (403 = 403 ∧ WALLET_NOT_AUTHORIZED_DETAIL = WALLET_NOT_AUTHORIZED_DETAIL) ∨
    (403 = 401 ∧ WALLET_NOT_AUTHORIZED_DETAIL = INVALID_SIGNATURE_DETAIL) :=
  audit_contract_error_statuses (fun _ _ => none) (fun _ => JVal.null)
    ⟨"0x3333333333333333333333333333333333333333", "0xsig", "doc"⟩
    403 WALLET_NOT_AUTHORIZED_DETAIL rfl

end RWASentinel
